import Mathlib

/-!
Verification of `pkg/config/workflow/flow.go` (model transform client).

The Go function `TransformModel` builds an in-memory multipart/form-data
body from a model stream, a target format and a filename, dispatches a
single HTTP call and translates the response into a byte payload or an
error.  We embed it as a pure function over an explicit model of the
reader (`GoStream`), the simulated transport outcome (`Transport`) and
the shared error classifier (a function parameter), returning the Go
return pair together with the trace of observable events (stream reads,
seeks, stdout debug prints, error-log lines, body finalization, the HTTP
dispatch, file open/close).
-/

namespace Flow

/-- One part of a multipart/form-data body, as produced by
`multipart.Writer`: `CreateFormFile` yields a file part with a name, a
filename and binary content; `WriteField` yields a text field. -/
inductive Part where
  | filePart (partName filename : String) (content : List Nat)
  | fieldPart (partName value : String)
deriving DecidableEq, Repr

/-- The name of a multipart part (the `name="..."` attribute of its
Content-Disposition header). -/
def Part.name : Part → String
  | .filePart n _ _ => n
  | .fieldPart n _ => n

/-- Error values produced by the Go code via `errorsx.G11NError`, kept
structured; `render` below produces the formatted message exactly as the
format strings in the source build it. -/
inductive ErrMsg where
  | unableToTransform
  | transformWithCause (cause : String)
  | transformWithStatus (code : Nat) (respBody : List Nat)
  | unableToOpenFile (path : String)
deriving DecidableEq, Repr

/-- Go renders `[]byte` into a message with `string(b)`; we map each byte
to the character with that code point. -/
def bytesToStr (b : List Nat) : String := String.mk (b.map Char.ofNat)

/-- The formatted message of each error, following the format strings of
the source (`"unable to transform model"`,
`"unable to transform the model; err=%s"`,
`"unable to transform the model; code=%d, body=%s"`,
`"unable to open model file; err=%v"`; for the last one the embedded os
error is summarized by the offending path). -/
def render : ErrMsg → String
  | .unableToTransform => "unable to transform model"
  | .transformWithCause c => "unable to transform the model; err=" ++ c
  | .transformWithStatus code respBody =>
      "unable to transform the model; code=" ++ Nat.repr code ++ ", body=" ++ bytesToStr respBody
  | .unableToOpenFile p => "unable to open model file; err=" ++ p

/-- `embeds s sub` holds when `sub` occurs contiguously inside `s`. -/
def embeds (s sub : String) : Prop :=
  ∃ a b, s.data = a ++ sub.data ++ b

/-- Model of the `io.Reader` passed to `TransformModel`:
`data` is the full underlying byte sequence, `pos` the current read
position, `errAt` (when `some k`) makes reads deliver bytes only up to
absolute offset `min k data.length` and then return a read error, and
`seekable` records whether the dynamic type also implements `io.Seeker`
(the debug-preview branch of the source tests exactly that). -/
structure GoStream where
  data : List Nat
  pos : Nat
  errAt : Option Nat
  seekable : Bool
deriving DecidableEq, Repr

/-- The content a sequential read of the stream to completion yields
from its current state (what `io.Copy` would consume). -/
def streamContent (s : GoStream) : List Nat := s.data.drop s.pos

/-- The absolute offset up to which reads deliver bytes before erroring
(the whole data when `errAt = none`). -/
def deliverable (s : GoStream) : Nat :=
  match s.errAt with
  | some k => min k s.data.length
  | none => s.data.length

/-- Ambient request context: `contextx.GetVerifyContext` supplies the
tenant address and the bearer token (the logger is observed through
events). -/
structure VerifyCtx where
  tenant : String
  token : String
deriving DecidableEq, Repr

/-- Simulated outcome of the single HTTP call made through the generated
client: either a response with a status code and raw body bytes, or a
transport failure with no response. -/
inductive Transport where
  | ok (status : Nat) (respBody : List Nat)
  | fail (msg : String)
deriving DecidableEq, Repr

/-- Observable events of one invocation, in order: debug prints to
stdout (`fmt.Printf`; the formatted arguments are elided, the tag is the
leading literal of the format string), error-log lines
(`vc.Logger.Errorf`), stream reads (`read off len` reads bytes
`[off, off+len)`), seeks, the finalization of the multipart body
(`writer.Close`), the HTTP dispatch (with its Authorization header
value), and file open/close for the file-path wrapper. -/
inductive Event where
  | stdout (tag : String)
  | logError (tag : String)
  | read (off len : Nat)
  | seek (off : Nat)
  | bodyFinalized (parts : List Part)
  | httpDispatch (auth : String)
  | fileOpen (path : String)
  | fileClose
deriving DecidableEq, Repr

/-- The Go return pair `([]byte, error)`: `body` is the first component
(`none` models a nil slice), `err` the second (`none` models a nil
error). -/
structure GoResult where
  body : Option (List Nat)
  err : Option ErrMsg
deriving DecidableEq, Repr

/-- Modelled from the spec: the shared error-classification helper
`errorsx.HandleCommonErrors` is part of this repository but not under
`src/`; per the spec's collaborator contract it is "a shared
error-classification function that, given an HTTP response, returns
either a recognized structured cause or indicates unrecognized".  We
take it as an arbitrary function of the response status and body,
returning the recognized cause's message or `none`. -/
def Classifier : Type := Nat → List Nat → Option String

/-- Embedding of `(*ModelTransformClient).TransformModel` from
`pkg/config/workflow/flow.go`, lines 36-193.  The multipart writer over
a `bytes.Buffer` is modelled by the ordered list of parts it
accumulates; its operations (`CreateFormFile`, `WriteField`, `Close`)
cannot fail when writing to an in-memory buffer, so their error branches
are never taken.  The debug-preview block reads up to 200 bytes when the
reader is seekable (swallowing any error) and then rewinds with
`Seek(0, 0)` to the absolute start.  Returns the Go return pair and the
event trace. -/
def TransformModel (vc : VerifyCtx) (modelFile : GoStream)
    (targetFormat filename : String) (transport : Transport)
    (classify : Classifier) : GoResult × List Event :=
  -- defaultErr := errorsx.G11NError("unable to transform model")
  let ev0 : List Event :=
    [.stdout "=== FORM CREATION DEBUG ===",
     .stdout "Target format parameter:",
     .stdout "File Name parameter:"]
  -- part, err := writer.CreateFormFile("model", filename) -- cannot fail on a bytes.Buffer
  let ev1 := ev0 ++ [.stdout "=== FILE CONTENT DEBUG ==="]
  -- if seeker, ok := modelFile.(io.Seeker); ok { preview read; seeker.Seek(0, 0) }
  let previewLen := min 200 (deliverable modelFile - modelFile.pos)
  let pos1 := if modelFile.seekable then 0 else modelFile.pos
  let ev2 :=
    if modelFile.seekable then
      ev1 ++ [.read modelFile.pos previewLen,
              .stdout "File preview (first bytes):", .seek 0]
    else ev1
  -- bytesWritten, err := io.Copy(part, modelFile)
  match modelFile.errAt with
  | some k =>
      (⟨none, some .unableToTransform⟩,
       ev2 ++ [.read pos1 (min k modelFile.data.length - pos1),
               .logError "Unable to copy model file"])
  | none =>
      let content := modelFile.data.drop pos1
      let ev3 := ev2 ++ [.read pos1 (modelFile.data.length - pos1),
                         .stdout "Added model file:",
                         .stdout "=== END FILE DEBUG ==="]
      -- err = writer.WriteField("targetformat", targetFormat) -- cannot fail on a bytes.Buffer
      let parts := [Part.filePart "model" filename content,
                    Part.fieldPart "targetformat" targetFormat]
      let ev4 := ev3 ++ [.stdout "Added targetformat field with value:",
                         .stdout "=== FORM FIELDS SUMMARY ===",
                         .stdout "1. model (file):",
                         .stdout "2. targetformat:",
                         .stdout "=== END SUMMARY ==="]
      -- err = writer.Close() -- cannot fail on a bytes.Buffer; finalizes the body
      let ev5 := ev4 ++ [.bodyFinalized parts]
      -- params := &TransformModelParams{ Authorization: "Bearer " + vc.Token }
      let auth := "Bearer " ++ vc.token
      -- the request editor runs before the wire call: sets body and headers, prints debug
      let ev6 := ev5 ++ [.stdout "=== ACTUAL HTTP REQUEST ===",
                         .stdout "=== FIELD VERIFICATION ===",
                         .stdout "=== FORM FIELDS ===",
                         .stdout "=== END REQUEST ===",
                         .httpDispatch auth]
      -- resp, err := client.TransformSourceModelToTargetModelWithResponse(...)
      match transport with
      | .fail _ =>
          (⟨none, some .unableToTransform⟩,
           ev6 ++ [.logError "Unable to transform model"])
      | .ok status respBody =>
          if status ≠ 200 then
            -- errorsx.HandleCommonErrors(ctx, resp.HTTPResponse, ...)
            match classify status respBody with
            | some cause =>
                (⟨none, some (.transformWithCause cause)⟩,
                 ev6 ++ [.logError "unable to transform the model; err="])
            | none =>
                (⟨none, some (.transformWithStatus status respBody)⟩,
                 ev6 ++ [.logError "unable to transform the model; code="])
          else
            (⟨some respBody, none⟩, ev6)

/-- Go's `filepath.Base` on a slash-separated path: empty path gives
`"."`, trailing separators are removed, the last element is returned,
and an all-separator path gives `"/"`. -/
def filepathBase (p : String) : String :=
  if p = "" then "."
  else
    let cs := (p.toList.reverse.dropWhile (fun c => c = '/')).reverse
    if cs = [] then "/"
    else String.mk (cs.reverse.takeWhile (fun c => c ≠ '/')).reverse

/-- The stream obtained from a freshly opened file with content `d`:
positioned at the start, error-free, seekable (`*os.File` implements
`io.Seeker`). -/
def fileStream (d : List Nat) : GoStream :=
  { data := d, pos := 0, errAt := none, seekable := true }

/-- Embedding of `(*ModelTransformClient).TransformModelFromFile`,
lines 195-205.  The file system is a partial map from paths to contents;
`os.Open` fails exactly on paths outside its domain.  The deferred
`file.Close()` runs on every exit path after a successful open. -/
def TransformModelFromFile (vc : VerifyCtx) (fs : String → Option (List Nat))
    (filePath targetFormat : String) (transport : Transport)
    (classify : Classifier) : GoResult × List Event :=
  match fs filePath with
  | none => (⟨none, some (.unableToOpenFile filePath)⟩, [])
  | some d =>
      let filename := filepathBase filePath
      let r := TransformModel vc (fileStream d) targetFormat filename transport classify
      (r.1, .fileOpen filePath :: r.2 ++ [.fileClose])

/-- The request struct `ModelTransformRequest` (the `io.Reader` field is
a `GoStream`). -/
structure ModelTransformRequest where
  ModelFile : GoStream
  TargetFormat : String
  FileName : String

/-- Embedding of `(*ModelTransformClient).TransformModelFromRequest`,
lines 207-209: a pure adapter. -/
def TransformModelFromRequest (vc : VerifyCtx) (req : ModelTransformRequest)
    (transport : Transport) (classify : Classifier) : GoResult × List Event :=
  TransformModel vc req.ModelFile req.TargetFormat req.FileName transport classify

/-- The finalized multipart body of a trace: the parts recorded by the
first `bodyFinalized` event, if any. -/
def finalizedParts : List Event → Option (List Part)
  | [] => none
  | .bodyFinalized p :: _ => some p
  | _ :: rest => finalizedParts rest

/-- The filename of the first file part named `model` in a body. -/
def modelPartFilename : List Part → Option String
  | [] => none
  | .filePart n fn _ :: rest => if n = "model" then some fn else modelPartFilename rest
  | .fieldPart _ _ :: rest => modelPartFilename rest

/-- The content of the first file part named `model` in a body. -/
def modelPartContent : List Part → Option (List Nat)
  | [] => none
  | .filePart n _ c :: rest => if n = "model" then some c else modelPartContent rest
  | .fieldPart _ _ :: rest => modelPartContent rest

/-- Whether a trace contains an HTTP dispatch. -/
def dispatched (evs : List Event) : Bool :=
  evs.any fun e => match e with
    | .httpDispatch _ => true
    | _ => false

/-- Whether a trace contains a stdout write. -/
def hasStdout (evs : List Event) : Bool :=
  evs.any fun e => match e with
    | .stdout _ => true
    | _ => false

/-- Whether a read event covers absolute stream offset `i`. -/
def covers (i : Nat) : Event → Bool
  | .read off len => off ≤ i && i < off + len
  | _ => false

/-- How many times the byte at absolute offset `i` of the stream is read
in a trace. -/
def readsOf (evs : List Event) (i : Nat) : Nat :=
  (evs.filter (covers i)).length

end Flow

namespace Flow

/-- When the copy succeeds (`errAt = none`), the finalized multipart
body of a run is the file part `model` (whose content starts at offset 0
for a seekable stream, because the debug preview rewinds with
`Seek(0, 0)`, and at the current position otherwise) followed by the
field `targetformat`, whatever the transport outcome. -/
theorem finalizedParts_run (vc : VerifyCtx) (stream : GoStream)
    (targetFormat filename : String) (transport : Transport) (classify : Classifier)
    (hok : stream.errAt = none) :
    finalizedParts (TransformModel vc stream targetFormat filename transport classify).2
      = some [Part.filePart "model" filename
                (stream.data.drop (if stream.seekable then 0 else stream.pos)),
              Part.fieldPart "targetformat" targetFormat] := by
  cases hs : stream.seekable <;>
    rcases transport with ⟨status, respBody⟩ | msg <;>
      simp only [TransformModel, hok, hs, Bool.false_eq_true, if_true, if_false, ite_true,
        ite_false] <;>
      [skip; simp [finalizedParts]; skip; simp [finalizedParts]] <;>
    · by_cases h200 : status = 200
      · simp [h200, finalizedParts]
      · cases hc : classify status respBody <;> simp [h200, hc, finalizedParts]

end Flow

namespace Flow

/-- When the stream errors on read, the run stops at the copy with the
default error and never reaches the HTTP dispatch. -/
theorem run_copy_error (vc : VerifyCtx) (stream : GoStream)
    (targetFormat filename : String) (transport : Transport) (classify : Classifier)
    (k : Nat) (herr : stream.errAt = some k) :
    (TransformModel vc stream targetFormat filename transport classify).1
        = ⟨none, some .unableToTransform⟩ ∧
    dispatched (TransformModel vc stream targetFormat filename transport classify).2 = false := by
  cases hs : stream.seekable <;> simp [TransformModel, herr, hs, dispatched]

/-- A 200 response hands its body back unchanged. -/
theorem run_ok200 (vc : VerifyCtx) (stream : GoStream)
    (targetFormat filename : String) (respBody : List Nat) (classify : Classifier)
    (hok : stream.errAt = none) :
    (TransformModel vc stream targetFormat filename (.ok 200 respBody) classify).1
      = ⟨some respBody, none⟩ := by
  cases hs : stream.seekable <;> simp [TransformModel, hok, hs]

/-- A transport failure yields the default error. -/
theorem run_fail (vc : VerifyCtx) (stream : GoStream)
    (targetFormat filename msg : String) (classify : Classifier)
    (hok : stream.errAt = none) :
    (TransformModel vc stream targetFormat filename (.fail msg) classify).1
      = ⟨none, some .unableToTransform⟩ := by
  cases hs : stream.seekable <;> simp [TransformModel, hok, hs]

/-- A non-200 response with an unrecognized cause yields the generic
status-and-body error. -/
theorem run_non200_none (vc : VerifyCtx) (stream : GoStream)
    (targetFormat filename : String) (status : Nat) (respBody : List Nat)
    (classify : Classifier) (hok : stream.errAt = none) (h200 : status ≠ 200)
    (hc : classify status respBody = none) :
    (TransformModel vc stream targetFormat filename (.ok status respBody) classify).1
      = ⟨none, some (.transformWithStatus status respBody)⟩ := by
  cases hs : stream.seekable <;> simp [TransformModel, hok, hs, h200, hc]

/-- A non-200 response with a recognized cause surfaces that cause. -/
theorem run_non200_some (vc : VerifyCtx) (stream : GoStream)
    (targetFormat filename : String) (status : Nat) (respBody : List Nat)
    (classify : Classifier) (cause : String) (hok : stream.errAt = none)
    (h200 : status ≠ 200) (hc : classify status respBody = some cause) :
    (TransformModel vc stream targetFormat filename (.ok status respBody) classify).1
      = ⟨none, some (.transformWithCause cause)⟩ := by
  cases hs : stream.seekable <;> simp [TransformModel, hok, hs, h200, hc]

/-- Every return of `TransformModel` is either an error with a nil body
or a body with a nil error. -/
theorem run_exclusive (vc : VerifyCtx) (stream : GoStream)
    (targetFormat filename : String) (transport : Transport) (classify : Classifier) :
    ((TransformModel vc stream targetFormat filename transport classify).1.err.isSome = true ∧
     (TransformModel vc stream targetFormat filename transport classify).1.body = none) ∨
    ((TransformModel vc stream targetFormat filename transport classify).1.err = none ∧
     (TransformModel vc stream targetFormat filename transport classify).1.body.isSome = true) := by
  cases herr : stream.errAt with
  | some k =>
      left
      rw [(run_copy_error vc stream targetFormat filename transport classify k herr).1]
      exact ⟨rfl, rfl⟩
  | none =>
      cases transport with
      | fail msg =>
          left
          rw [run_fail vc stream targetFormat filename msg classify herr]
          exact ⟨rfl, rfl⟩
      | ok status respBody =>
          by_cases h200 : status = 200
          · subst h200
            right
            rw [run_ok200 vc stream targetFormat filename respBody classify herr]
            exact ⟨rfl, rfl⟩
          · cases hc : classify status respBody with
            | none =>
                left
                rw [run_non200_none vc stream targetFormat filename status respBody classify
                  herr h200 hc]
                exact ⟨rfl, rfl⟩
            | some cause =>
                left
                rw [run_non200_some vc stream targetFormat filename status respBody classify
                  cause herr h200 hc]
                exact ⟨rfl, rfl⟩

end Flow

namespace Flow

/-- Claim C1: for every readable model stream and non-empty target
format, the multipart body built by `TransformModel` before dispatch
contains exactly two parts, named exactly `model` and `targetformat`,
in that order.  (`TransformModel` accepts no source format at all, so
the three-part variant of the claim is vacuous: the name list below is
exhaustive and never contains `sourceformat`.)  The hypothesis
`stream.errAt = none` restricts to runs in which the body is actually
finalized; a stream that errors never produces a body. -/
theorem C1_body_two_parts (vc : VerifyCtx) (stream : GoStream)
    (targetFormat filename : String) (transport : Transport) (classify : Classifier)
    (htf : targetFormat ≠ "") (hok : stream.errAt = none) :
    (finalizedParts (TransformModel vc stream targetFormat filename transport classify).2).map
      (List.map Part.name) = some ["model", "targetformat"] := by
  rw [finalizedParts_run vc stream targetFormat filename transport classify hok]
  rfl

/-- Witness for C1 at a concrete input. -/
theorem C1_body_two_parts_witness :
    (finalizedParts (TransformModel ⟨"tenant", "tok"⟩ ⟨[7], 0, none, true⟩ "json" "m.xml"
        (.ok 200 [65]) (fun _ _ => none)).2).map (List.map Part.name)
      = some ["model", "targetformat"] :=
  C1_body_two_parts ⟨"tenant", "tok"⟩ ⟨[7], 0, none, true⟩ "json" "m.xml"
    (.ok 200 [65]) (fun _ _ => none) (by decide) rfl

/-- Claim C3: whenever the HTTP call completes with status 200 and
response body `B`, `TransformModel` returns exactly `B`, unmodified,
with no error.  The hypothesis `stream.errAt = none` makes the run
reach the HTTP call at all. -/
theorem C3_ok200_returns_body (vc : VerifyCtx) (stream : GoStream)
    (targetFormat filename : String) (respBody : List Nat) (classify : Classifier)
    (hok : stream.errAt = none) :
    (TransformModel vc stream targetFormat filename (.ok 200 respBody) classify).1
      = ⟨some respBody, none⟩ :=
  run_ok200 vc stream targetFormat filename respBody classify hok

/-- Witness for C3 at a concrete input. -/
theorem C3_ok200_returns_body_witness :
    (TransformModel ⟨"tenant", "tok"⟩ ⟨[7, 8], 0, none, false⟩ "json" "m.xml"
        (.ok 200 [65, 66]) (fun _ _ => none)).1 = ⟨some [65, 66], none⟩ :=
  C3_ok200_returns_body ⟨"tenant", "tok"⟩ ⟨[7, 8], 0, none, false⟩ "json" "m.xml"
    [65, 66] (fun _ _ => none) rfl

/-- Claim C7: if the model stream errors while being read,
`TransformModel` fails with an error and no HTTP request is
dispatched. -/
theorem C7_stream_error_no_dispatch (vc : VerifyCtx) (stream : GoStream)
    (targetFormat filename : String) (transport : Transport) (classify : Classifier)
    (k : Nat) (herr : stream.errAt = some k) :
    (TransformModel vc stream targetFormat filename transport classify).1
        = ⟨none, some .unableToTransform⟩ ∧
    dispatched (TransformModel vc stream targetFormat filename transport classify).2 = false :=
  run_copy_error vc stream targetFormat filename transport classify k herr

/-- Witness for C7 at a concrete input: a stream erroring at offset 1. -/
theorem C7_stream_error_no_dispatch_witness :
    (TransformModel ⟨"tenant", "tok"⟩ ⟨[7, 8, 9], 0, some 1, false⟩ "json" "m.xml"
        (.ok 200 []) (fun _ _ => none)).1 = ⟨none, some .unableToTransform⟩ ∧
    dispatched (TransformModel ⟨"tenant", "tok"⟩ ⟨[7, 8, 9], 0, some 1, false⟩ "json" "m.xml"
        (.ok 200 []) (fun _ _ => none)).2 = false :=
  C7_stream_error_no_dispatch ⟨"tenant", "tok"⟩ ⟨[7, 8, 9], 0, some 1, false⟩ "json" "m.xml"
    (.ok 200 []) (fun _ _ => none) 1 rfl

end Flow

namespace Flow

/-- Claim C8: on a non-success status, when the shared
error-classification helper recognizes no cause, the failure embeds the
numeric status code and the raw response body in its message; when it
recognizes a cause, that cause is surfaced in the failure instead. -/
theorem C8_non200_failure (vc : VerifyCtx) (stream : GoStream)
    (targetFormat filename : String) (status : Nat) (respBody : List Nat)
    (classify : Classifier) (hok : stream.errAt = none) (h200 : status ≠ 200) :
    (classify status respBody = none →
      (TransformModel vc stream targetFormat filename (.ok status respBody) classify).1
          = ⟨none, some (.transformWithStatus status respBody)⟩ ∧
      embeds (render (.transformWithStatus status respBody)) (Nat.repr status) ∧
      embeds (render (.transformWithStatus status respBody)) (bytesToStr respBody)) ∧
    (∀ cause, classify status respBody = some cause →
      (TransformModel vc stream targetFormat filename (.ok status respBody) classify).1
          = ⟨none, some (.transformWithCause cause)⟩ ∧
      embeds (render (.transformWithCause cause)) cause) := by
  constructor
  · intro hc
    refine ⟨run_non200_none vc stream targetFormat filename status respBody classify
      hok h200 hc, ?_, ?_⟩
    · refine ⟨"unable to transform the model; code=".data,
        (", body=" ++ bytesToStr respBody).data, ?_⟩
      simp [render, String.data_append]
    · refine ⟨("unable to transform the model; code=" ++ Nat.repr status ++ ", body=").data,
        [], ?_⟩
      simp [render, String.data_append]
  · intro cause hc
    refine ⟨run_non200_some vc stream targetFormat filename status respBody classify
      cause hok h200 hc, ?_⟩
    exact ⟨"unable to transform the model; err=".data, [], by simp [render, String.data_append]⟩

/-- Witness for C8 at a concrete input: status 403, body `AB`, a
classifier that recognizes nothing. -/
theorem C8_non200_failure_witness :
    ((fun (_ : Nat) (_ : List Nat) => (none : Option String)) 403 [65, 66] = none →
      (TransformModel ⟨"tenant", "tok"⟩ ⟨[7], 0, none, false⟩ "json" "m.xml"
          (.ok 403 [65, 66]) (fun _ _ => none)).1
          = ⟨none, some (.transformWithStatus 403 [65, 66])⟩ ∧
      embeds (render (.transformWithStatus 403 [65, 66])) (Nat.repr 403) ∧
      embeds (render (.transformWithStatus 403 [65, 66])) (bytesToStr [65, 66])) ∧
    (∀ cause, (fun (_ : Nat) (_ : List Nat) => (none : Option String)) 403 [65, 66]
        = some cause →
      (TransformModel ⟨"tenant", "tok"⟩ ⟨[7], 0, none, false⟩ "json" "m.xml"
          (.ok 403 [65, 66]) (fun _ _ => none)).1
          = ⟨none, some (.transformWithCause cause)⟩ ∧
      embeds (render (.transformWithCause cause)) cause) :=
  C8_non200_failure ⟨"tenant", "tok"⟩ ⟨[7], 0, none, false⟩ "json" "m.xml" 403 [65, 66]
    (fun _ _ => none) rfl (by decide)

/-- Claim C10: every return of `TransformModel` and of the two
convenience wrappers is exactly one of: a non-nil error with a nil byte
slice, or a nil error with the response body. -/
theorem C10_result_exclusive :
    (∀ (vc : VerifyCtx) (stream : GoStream) (targetFormat filename : String)
        (transport : Transport) (classify : Classifier),
      ((TransformModel vc stream targetFormat filename transport classify).1.err.isSome = true ∧
       (TransformModel vc stream targetFormat filename transport classify).1.body = none) ∨
      ((TransformModel vc stream targetFormat filename transport classify).1.err = none ∧
       (TransformModel vc stream targetFormat filename transport classify).1.body.isSome
         = true)) ∧
    (∀ (vc : VerifyCtx) (fs : String → Option (List Nat)) (filePath targetFormat : String)
        (transport : Transport) (classify : Classifier),
      ((TransformModelFromFile vc fs filePath targetFormat transport classify).1.err.isSome
          = true ∧
       (TransformModelFromFile vc fs filePath targetFormat transport classify).1.body = none) ∨
      ((TransformModelFromFile vc fs filePath targetFormat transport classify).1.err = none ∧
       (TransformModelFromFile vc fs filePath targetFormat transport classify).1.body.isSome
         = true)) ∧
    (∀ (vc : VerifyCtx) (req : ModelTransformRequest) (transport : Transport)
        (classify : Classifier),
      ((TransformModelFromRequest vc req transport classify).1.err.isSome = true ∧
       (TransformModelFromRequest vc req transport classify).1.body = none) ∨
      ((TransformModelFromRequest vc req transport classify).1.err = none ∧
       (TransformModelFromRequest vc req transport classify).1.body.isSome = true)) := by
  refine ⟨fun vc stream tf fn transport classify =>
    run_exclusive vc stream tf fn transport classify, ?_, ?_⟩
  · intro vc fs filePath targetFormat transport classify
    cases hfs : fs filePath with
    | none => left; simp [TransformModelFromFile, hfs]
    | some d =>
        have h := run_exclusive vc (fileStream d) targetFormat (filepathBase filePath)
          transport classify
        simpa [TransformModelFromFile, hfs] using h
  · intro vc req transport classify
    exact run_exclusive vc req.ModelFile req.TargetFormat req.FileName transport classify

end Flow

namespace Flow

/-- Claim C4 as stated is false on the code: there is no fixed non-empty
default placeholder filename substituted when the caller supplies none.
`writer.CreateFormFile("model", filename)` receives the caller's
filename verbatim, so with an empty filename the recorded filename is
the empty string, which no fixed placeholder name can equal. -/
theorem C4_counterexample :
    ¬ ∃ placeholder : String, placeholder ≠ "" ∧
      ∀ (vc : VerifyCtx) (stream : GoStream) (targetFormat filename : String)
        (transport : Transport) (classify : Classifier),
        stream.errAt = none →
        (finalizedParts
            (TransformModel vc stream targetFormat filename transport classify).2).bind
            modelPartFilename
          = some (if filename = "" then placeholder else filename) := by
  rintro ⟨placeholder, hne, hall⟩
  have h := hall ⟨"tenant", "tok"⟩ ⟨[7], 0, none, true⟩ "json" "" (.ok 200 [])
    (fun _ _ => none) rfl
  rw [if_pos rfl] at h
  have hval : (finalizedParts
      (TransformModel ⟨"tenant", "tok"⟩ ⟨[7], 0, none, true⟩ "json" "" (.ok 200 [])
        (fun _ _ => none)).2).bind modelPartFilename = some "" := by rfl
  exact hne (Option.some.inj (hval.symm.trans h)).symm

/-- Claim C4 amended: the `model` part's filename always equals the
caller-supplied filename verbatim; when none is given the filename is
the empty string — no default placeholder is substituted. -/
theorem C4_filename_verbatim (vc : VerifyCtx) (stream : GoStream)
    (targetFormat filename : String) (transport : Transport) (classify : Classifier)
    (hok : stream.errAt = none) :
    (finalizedParts (TransformModel vc stream targetFormat filename transport classify).2).bind
        modelPartFilename = some filename := by
  rw [finalizedParts_run vc stream targetFormat filename transport classify hok]
  simp [modelPartFilename]

/-- Witness for the amended C4 at a concrete input with no filename. -/
theorem C4_filename_verbatim_witness :
    (finalizedParts (TransformModel ⟨"tenant", "tok"⟩ ⟨[7], 0, none, false⟩ "json" ""
        (.ok 200 []) (fun _ _ => none)).2).bind modelPartFilename = some "" :=
  C4_filename_verbatim ⟨"tenant", "tok"⟩ ⟨[7], 0, none, false⟩ "json" ""
    (.ok 200 []) (fun _ _ => none) rfl

/-- Claim C2 fails on the code: for a seekable stream over bytes
`[10, 20]` positioned at offset 1, reading the stream to completion
yields `[20]`, but the leftover debug-preview block rewinds the stream
with `Seek(0, 0)` to the absolute start, so the `model` part receives
the whole underlying content `[10, 20]` instead of the stream's
content. -/
theorem C2_rewind_divergence :
    streamContent ⟨[10, 20], 1, none, true⟩ = [20] ∧
    (finalizedParts (TransformModel ⟨"tenant", "tok"⟩ ⟨[10, 20], 1, none, true⟩ "json" "m.xml"
          (.ok 200 []) (fun _ _ => none)).2).bind modelPartContent = some [10, 20] ∧
    ([10, 20] : List Nat) ≠ [20] := by
  exact ⟨rfl, rfl, by decide⟩

/-- Claim C5 fails on the code: for a seekable stream (as every file
stream is), the leftover debug-preview block reads up to 200 bytes
before `io.Copy` reads the stream again from the start, so byte 0 is
read twice in one invocation — the trace below records exactly two read
events covering offset 0 — contradicting "no part of the stream is read
more than once". -/
theorem C5_double_read :
    readsOf (TransformModel ⟨"tenant", "tok"⟩ ⟨[7], 0, none, true⟩ "json" "m.xml"
        (.ok 200 []) (fun _ _ => none)).2 0 = 2 := by
  rfl

/-- Claim C6 fails on the code: a fully successful invocation (no error
returned) still writes debug output to standard output via `fmt.Printf`,
a side effect beyond the single network call and the diagnostic logging
of failures. -/
theorem C6_stdout_on_success :
    hasStdout (TransformModel ⟨"tenant", "tok"⟩ ⟨[7], 0, none, false⟩ "json" "m.xml"
        (.ok 200 [65]) (fun _ _ => none)).2 = true ∧
    (TransformModel ⟨"tenant", "tok"⟩ ⟨[7], 0, none, false⟩ "json" "m.xml"
        (.ok 200 [65]) (fun _ _ => none)).1.err = none := by
  exact ⟨rfl, rfl⟩

end Flow

namespace Flow

/-- A trace that has already finalized a body keeps it under later
events. -/
theorem finalizedParts_append (xs ys : List Event) (p : List Part)
    (h : finalizedParts xs = some p) : finalizedParts (xs ++ ys) = some p := by
  induction xs with
  | nil => simp [finalizedParts] at h
  | cons e rest ih => cases e <;> simp_all [finalizedParts]

/-- Opening a file does not finalize a body. -/
theorem finalizedParts_fileOpen_cons (p : String) (evs : List Event) :
    finalizedParts (.fileOpen p :: evs) = finalizedParts evs := rfl

/-- Claim C9: `TransformModelFromFile` on a path that cannot be opened
fails with a file-access error and dispatches no HTTP request; when the
file opens, the `model` part carries the path's final segment as its
filename and the file handle is closed on every exit path (the trace
ends with `fileClose` whatever the transport outcome). -/
theorem C9_from_file (vc : VerifyCtx) (fs : String → Option (List Nat))
    (filePath targetFormat : String) (transport : Transport) (classify : Classifier) :
    (fs filePath = none →
      (TransformModelFromFile vc fs filePath targetFormat transport classify).1
          = ⟨none, some (.unableToOpenFile filePath)⟩ ∧
      dispatched (TransformModelFromFile vc fs filePath targetFormat transport classify).2
          = false) ∧
    (∀ d, fs filePath = some d →
      (finalizedParts
          (TransformModelFromFile vc fs filePath targetFormat transport classify).2).bind
          modelPartFilename = some (filepathBase filePath) ∧
      Event.fileClose
        ∈ (TransformModelFromFile vc fs filePath targetFormat transport classify).2) := by
  constructor
  · intro hfs
    constructor
    · simp [TransformModelFromFile, hfs]
    · simp [TransformModelFromFile, hfs, dispatched]
  · intro d hfs
    have hparts := finalizedParts_run vc (fileStream d) targetFormat (filepathBase filePath)
      transport classify rfl
    constructor
    · simp only [TransformModelFromFile, hfs]
      rw [finalizedParts_append _ _ _ (by rw [finalizedParts_fileOpen_cons]; exact hparts)]
      simp [modelPartFilename]
    · simp [TransformModelFromFile, hfs]

/-- Witness for C9 at concrete inputs: an empty file system for the
failure branch, a one-file file system for the success branch. -/
theorem C9_from_file_witness :
    ((TransformModelFromFile ⟨"tenant", "tok"⟩ (fun _ => none) "/a/b.xml" "json"
        (.ok 200 []) (fun _ _ => none)).1 = ⟨none, some (.unableToOpenFile "/a/b.xml")⟩ ∧
     dispatched (TransformModelFromFile ⟨"tenant", "tok"⟩ (fun _ => none) "/a/b.xml" "json"
        (.ok 200 []) (fun _ _ => none)).2 = false) ∧
    ((finalizedParts (TransformModelFromFile ⟨"tenant", "tok"⟩ (fun _ => some [7]) "/a/b.xml"
          "json" (.ok 200 []) (fun _ _ => none)).2).bind modelPartFilename
        = some (filepathBase "/a/b.xml") ∧
     Event.fileClose ∈ (TransformModelFromFile ⟨"tenant", "tok"⟩ (fun _ => some [7]) "/a/b.xml"
          "json" (.ok 200 []) (fun _ _ => none)).2) :=
  ⟨(C9_from_file ⟨"tenant", "tok"⟩ (fun _ => none) "/a/b.xml" "json"
      (.ok 200 []) (fun _ _ => none)).1 rfl,
   (C9_from_file ⟨"tenant", "tok"⟩ (fun _ => some [7]) "/a/b.xml" "json"
      (.ok 200 []) (fun _ _ => none)).2 [7] rfl⟩

end Flow
